import Mathlib

/-!
Verification development for the weather repository core.

The embedding models:
- Go maps as association lists with unique keys maintained by construction
  (mapLookup models a read m[k], mapSet models an assignment m[k] = v);
- float64 temperatures as rationals (the claims at stake involve exact
  small-integer arithmetic, where float64 and rational arithmetic agree);
- timestamps as integer nanosecond counts (the unit underlying the Go
  time.Duration type);
- database effects (transaction begin, prepare, scan, commit) as explicit
  step-outcome records, and the relational queries as functions over an
  explicit list-of-rows database state.
-/

namespace Weather

/-! ## Go map primitives -/

/-- A read m[k] from a Go map, modelled on an association list: the value at
the first binding of the key, if any. -/
def mapLookup {K V : Type} [DecidableEq K] : List (K × V) → K → Option V
  | [], _ => none
  | (k', v) :: rest, k => if k = k' then some v else mapLookup rest k

/-- A Go map assignment m[k] = v: replaces the first binding of the key when
present, otherwise appends a fresh binding. -/
def mapSet {K V : Type} [DecidableEq K] : List (K × V) → K → V → List (K × V)
  | [], k, v => [(k, v)]
  | (k', v') :: rest, k, v =>
    if k = k' then (k', v) :: rest else (k', v') :: mapSet rest k v

/-! ## The nested temperature result structure (src/db/rows.go) -/

/-- List of temperature samples, the leaf of the nested result. -/
abbrev TemperatureQueries := List ℚ

/-- day number to samples. -/
abbrev DailyTemperatureQuery := List (Int × TemperatureQueries)

/-- month number to day buckets. -/
abbrev MonthlyTemperatureQuery := List (Int × DailyTemperatureQuery)

/-- year to month buckets. -/
abbrev YearlyTemperatureQuery := List (Int × MonthlyTemperatureQuery)

/-- city name to year buckets. -/
abbrev LocationTemperatureQueryResult := List (String × YearlyTemperatureQuery)

instance instDecEqTemperatureQueries : DecidableEq TemperatureQueries :=
  inferInstance

instance instDecEqDailyTemperatureQuery : DecidableEq DailyTemperatureQuery :=
  instDecidableEqList

instance instDecEqMonthlyTemperatureQuery :
    DecidableEq MonthlyTemperatureQuery :=
  instDecidableEqList

instance instDecEqYearlyTemperatureQuery : DecidableEq YearlyTemperatureQuery :=
  instDecidableEqList

instance instDecEqLocationTemperatureQueryResult :
    DecidableEq LocationTemperatureQueryResult :=
  instDecidableEqList

/-- Path lookup down to the day-map of a month (the map the Go expression
q[city][y][mo] denotes when every level is present). -/
def lookup3 (q : LocationTemperatureQueryResult) (city : String) (y mo : Int) :
    Option DailyTemperatureQuery :=
  (mapLookup q city).bind fun yearly =>
    (mapLookup yearly y).bind fun monthly => mapLookup monthly mo

/-- Path lookup down to the sample list of one day. -/
def lookup4 (q : LocationTemperatureQueryResult) (city : String) (y mo d : Int) :
    Option TemperatureQueries :=
  (lookup3 q city y mo).bind fun daily => mapLookup daily d

/-- InitialiseForDate from src/db/rows.go: ensure every level of the
(city, y, mo, d) path references an initialised map, creating missing levels
as empty maps and the missing leaf as an empty sample list. Levels that exist
are kept (the Go code mutates the nested maps in place; here the enclosing
maps are rebuilt with the same values). -/
def InitialiseForDate (q : LocationTemperatureQueryResult)
    (city : String) (y mo d : Int) : LocationTemperatureQueryResult :=
  let yearly := (mapLookup q city).getD []
  let monthly := (mapLookup yearly y).getD []
  let daily := (mapLookup monthly mo).getD []
  let temps := (mapLookup daily d).getD []
  mapSet q city (mapSet yearly y (mapSet monthly mo (mapSet daily d temps)))

/-- Add from src/db/rows.go: the nested assignment
q[city][y][mo][d] = append(q[city][y][mo][d], temp). Reading a missing key
yields the zero value (a nil map), and assignment into a nil map is a runtime
panic, modelled by none: the assignment target q[city][y][mo] must exist.
When it exists, append works even if the day key d is absent (append to the
nil slice creates the list). -/
def Add (q : LocationTemperatureQueryResult) (temp : ℚ)
    (city : String) (y mo d : Int) : Option LocationTemperatureQueryResult :=
  match mapLookup q city with
  | none => none
  | some yearly =>
    match mapLookup yearly y with
    | none => none
    | some monthly =>
      match mapLookup monthly mo with
      | none => none
      | some daily =>
        let temps := (mapLookup daily d).getD []
        some (mapSet q city (mapSet yearly y
          (mapSet monthly mo (mapSet daily d (temps ++ [temp])))))

/-- Helper capturing the common shape of InitialiseForDate and of Add after
InitialiseForDate: rebuild the path with the given leaf value. -/
def setPath (q : LocationTemperatureQueryResult)
    (city : String) (y mo d : Int) (l : TemperatureQueries) :
    LocationTemperatureQueryResult :=
  mapSet q city
    (mapSet ((mapLookup q city).getD []) y
      (mapSet ((mapLookup ((mapLookup q city).getD []) y).getD []) mo
        (mapSet
          ((mapLookup
            ((mapLookup ((mapLookup q city).getD []) y).getD []) mo).getD [])
          d l)))

/-! ## The bucketing folds (MonthlyTemperature and MonthlyAverageTemperature,
src/db/rows.go) -/

/-- One scanned row of the locations-weather join used by the temperature
reports: nullable city name, nullable temperature columns, and the
year, month, day extracted from at_time by t.Date(). The scanned id columns
are not used by the folds and are omitted. -/
structure WeatherJoinRow where
  cname : Option String
  tempLo : Option ℚ
  tempHi : Option ℚ
  year : Int
  month : Int
  day : Int
  deriving DecidableEq, Repr

/-- The shared loop body of the bucketing folds over the scanned rows, with
the sample a row contributes abstracted (the selected column for
MonthlyTemperature, the midpoint of the temperature pair for
MonthlyAverageTemperature). Per row: skip when the city name is null; ensure
the bucket path exists via InitialiseForDate; skip when the sample is null
(note the skip happens after the path was created); append the sample via
Add. A nil-map panic in Add is propagated as none. -/
def bucketFold (sample : WeatherJoinRow → Option ℚ) :
    List WeatherJoinRow → LocationTemperatureQueryResult →
    Option LocationTemperatureQueryResult
  | [], acc => some acc
  | r :: rest, acc =>
    match r.cname with
    | none => bucketFold sample rest acc
    | some city =>
      let acc1 := InitialiseForDate acc city r.year r.month r.day
      match sample r with
      | none => bucketFold sample rest acc1
      | some t =>
        match Add acc1 t city r.year r.month r.day with
        | none => none
        | some acc2 => bucketFold sample rest acc2

/-- Exported filter constants from src/db/rows.go. -/
def FilterLows : String := "lows"

/-- See FilterLows. -/
def FilterHighs : String := "highs"

/-- See FilterLows. -/
def FilterAverages : String := "avgs"

/-- Result of MonthlyTemperature: an invalid filter is a returned error, a
nil-map assignment is a runtime panic, otherwise the built structure. -/
inductive MonthlyTemperatureResult where
  | invalidFilter
  | panicked
  | ok (q : LocationTemperatureQueryResult)
  deriving DecidableEq, Repr

/-- MonthlyTemperature from src/db/rows.go: selects the temp_low column for
FilterLows, temp_high for FilterHighs, errors on any other filter, then runs
the bucketing fold over the scanned rows starting from the empty result. -/
def MonthlyTemperature (f : String) (rows : List WeatherJoinRow) :
    MonthlyTemperatureResult :=
  if f = FilterLows then
    match bucketFold (fun r => r.tempLo) rows [] with
    | none => .panicked
    | some q => .ok q
  else if f = FilterHighs then
    match bucketFold (fun r => r.tempHi) rows [] with
    | none => .panicked
    | some q => .ok q
  else .invalidFilter

/-- The sample MonthlyAverageTemperature buckets for one row: the midpoint
(templo + temphi) / 2, available only when both columns are non-null. -/
def dailySample (r : WeatherJoinRow) : Option ℚ :=
  match r.tempLo, r.tempHi with
  | some lo, some hi => some ((lo + hi) / 2)
  | _, _ => none

/-- The counter the Go code names samplesPerMonth: incremented once per day
bucket of the month being averaged. -/
def samplesPerMonth (month : DailyTemperatureQuery) : Nat :=
  month.length

/-- The counter the Go code names samplesPerDay: incremented once per sample
across all day buckets of the month being averaged. -/
def samplesPerDay (month : DailyTemperatureQuery) : Nat :=
  (month.map fun de => de.2.length).sum

/-- Sum of every sample of the month, accumulated in avg before the
divisions. -/
def monthTempSum (month : DailyTemperatureQuery) : ℚ :=
  (month.map fun de => de.2.sum).sum

/-- The value MonthlyAverageTemperature stores for one month: the sample sum
divided by the total sample count and then by the day count (the divisions
performed on the avg accumulator). -/
def monthAverage (month : DailyTemperatureQuery) : ℚ :=
  monthTempSum month / (samplesPerDay month : ℚ) / (samplesPerMonth month : ℚ)

/-- Innermost write-out loop of MonthlyAverageTemperature: for each month of
one city and year, store the computed average at day bucket 0. -/
def monthlyAverageMonthLoop (c : String) (y : Int) :
    List (Int × DailyTemperatureQuery) → LocationTemperatureQueryResult →
    Option LocationTemperatureQueryResult
  | [], acc => some acc
  | (m, month) :: rest, acc =>
    match Add (InitialiseForDate acc c y m 0) (monthAverage month) c y m 0 with
    | none => none
    | some acc2 => monthlyAverageMonthLoop c y rest acc2

/-- Middle write-out loop of MonthlyAverageTemperature over the years of one
city. -/
def monthlyAverageYearLoop (c : String) :
    List (Int × MonthlyTemperatureQuery) → LocationTemperatureQueryResult →
    Option LocationTemperatureQueryResult
  | [], acc => some acc
  | (y, months) :: rest, acc =>
    match monthlyAverageMonthLoop c y months acc with
    | none => none
    | some acc2 => monthlyAverageYearLoop c rest acc2

/-- Outer write-out loop of MonthlyAverageTemperature over the cities. -/
def monthlyAverageCityLoop :
    List (String × YearlyTemperatureQuery) → LocationTemperatureQueryResult →
    Option LocationTemperatureQueryResult
  | [], acc => some acc
  | (c, years) :: rest, acc =>
    match monthlyAverageYearLoop c years acc with
    | none => none
    | some acc2 => monthlyAverageCityLoop rest acc2

/-- MonthlyAverageTemperature from src/db/rows.go: first bucket the midpoint
of each non-null temperature pair into the per-day structure dailyAvgTemps,
then for each month divide the accumulated sum by the total sample count and
the day count, storing the result at day bucket 0 of a fresh structure. -/
def MonthlyAverageTemperature (rows : List WeatherJoinRow) :
    Option LocationTemperatureQueryResult :=
  match bucketFold dailySample rows [] with
  | none => none
  | some dailyAvgTemps => monthlyAverageCityLoop dailyAvgTemps []

/-! ## Structural predicates on the nested result -/

/-- Every leaf sample list present anywhere in the structure is non-empty. -/
def NonEmptyLeaves (q : LocationTemperatureQueryResult) : Prop :=
  ∀ ce ∈ q, ∀ ye ∈ ce.2, ∀ me ∈ ye.2, ∀ de ∈ me.2, de.2 ≠ []

/-- Every month bucket present anywhere in the structure holds at least one
day bucket. -/
def NonEmptyMonths (q : LocationTemperatureQueryResult) : Prop :=
  ∀ ce ∈ q, ∀ ye ∈ ce.2, ∀ me ∈ ye.2, me.2 ≠ []

/-- Both divisors of the averaging loop are non-zero for every month bucket
of the structure. -/
def MonthDivisorsNonZero (q : LocationTemperatureQueryResult) : Prop :=
  ∀ ce ∈ q, ∀ ye ∈ ce.2, ∀ me ∈ ye.2,
    samplesPerDay me.2 ≠ 0 ∧ samplesPerMonth me.2 ≠ 0

instance instDecMonthDivisorsNonZero (q : LocationTemperatureQueryResult) :
    Decidable (MonthDivisorsNonZero q) :=
  inferInstanceAs (Decidable (∀ ce ∈ q, ∀ ye ∈ ce.2, ∀ me ∈ ye.2,
    samplesPerDay me.2 ≠ 0 ∧ samplesPerMonth me.2 ≠ 0))

/-! ## Rows and relational state (src/db/rows.go) -/

/-- A row of the locations table. The sql.Null wrappers are dropped for the
scanned result of a successful fetch, where all three columns are set. -/
structure LocationRow where
  id : Int
  cityName : String
  queryCount : Int
  deriving DecidableEq, Repr

/-- A row of the weather table. -/
structure WeatherRow where
  locationRowId : Int
  labels : List String
  tempHigh : Option ℚ
  tempLow : Option ℚ
  atTime : Int
  deriving DecidableEq, Repr

/-- The persisted tables consulted by FetchLocationWeather. -/
structure WeatherDB where
  locations : List LocationRow
  weather : List WeatherRow
  deriving DecidableEq, Repr

/-- The SQL aggregate select max(at_time) from weather: none on an empty
table (SQL NULL, which no at_time equality test matches). -/
def maxAtTime (rows : List WeatherRow) : Option Int :=
  rows.foldl
    (fun acc w =>
      match acc with
      | none => some w.atTime
      | some m => some (max m w.atTime))
    none

/-- The rows satisfying the WHERE clause of the FetchLocationWeather query:
a cross join of locations and weather (the query states no
locations.id = weather.location_id condition) filtered by
city_name = cityName and at_time = (select max(at_time) from weather). -/
def fetchCandidates (db : WeatherDB) (cityName : String) :
    List (LocationRow × WeatherRow) :=
  ((db.locations.map fun l => db.weather.map fun w => (l, w)).flatten).filter
    fun p => p.1.cityName == cityName && maxAtTime db.weather == some p.2.atTime

/-- The row QueryRow and Scan produce for the FetchLocationWeather query:
the first candidate of the join, if any (the database row order is
unspecified in SQL; the list order of the model stands in for it). -/
def fetchScannedRow (db : WeatherDB) (cityName : String) :
    Option (LocationRow × WeatherRow) :=
  (fetchCandidates db cityName).head?

/-- FetchLocationWeather from src/db/rows.go. The Scan result is dispatched
by a switch on err: the arm case sql.ErrNoRows returns nil, nil; the next
arm, case err, compares err with itself and therefore always matches when
reached, returning nil together with err — which is nil on a successful
scan. The default arm that would return the scanned QueryResult is dead
code, so the function returns a nil QueryResult on every path: the match
below keeps both live arms of the switch, and both yield none. (A scan
failing with an error other than sql.ErrNoRows additionally returns that
error; no such error source exists in this relational model.) -/
def FetchLocationWeather (db : WeatherDB) (cityName : String) :
    Option (LocationRow × WeatherRow) :=
  match fetchScannedRow db cityName with
  | none => none
  | some _ => none

/-! ## The weather request handler (ReportLocationWeather,
src/unnamed/part_001) -/

/-- The cacheTTLMinutes constant of the handler source. -/
def cacheTTLMinutes : ℚ := 1

/-- delta.Minutes() for a delta of (now - atTime) nanoseconds: the duration
divided by the nanosecond count of one minute. -/
def deltaMinutes (now atTime : Int) : ℚ :=
  ((now - atTime : Int) : ℚ) / 60000000000

/-- What the handler does about the Provider Gateway after the freshness
test: answer from the cached reading, or call the gateway. -/
inductive HandlerAction where
  | respondCached (wr : WeatherRow)
  | callGateway
  deriving DecidableEq, Repr

/-- The freshness decision of ReportLocationWeather: refresh starts true;
when the lookup produced a location and a reading and the age of the reading
is under the TTL, refresh becomes false (and the handler answers from the
cached reading after bumping the query counter); otherwise the gateway is
called. -/
def ReportLocationWeather (fetched : Option (LocationRow × WeatherRow))
    (now : Int) : HandlerAction :=
  match fetched with
  | none => .callGateway
  | some (_, wr) =>
    if deltaMinutes now wr.atTime < cacheTTLMinutes then .respondCached wr
    else .callGateway

/-- The min and max temperature of a gateway response payload. -/
structure GatewayConditions where
  tempMin : ℚ
  tempMax : ℚ
  deriving DecidableEq, Repr

/-- The fields of the api.Location payload the refresh branch reads: the
status code Cod, the optional provider message, the temperatures and the
condition labels collected by WeatherLabels(). -/
structure GatewayLocation where
  cod : Int
  message : Option String
  main : GatewayConditions
  weatherLabels : List String
  deriving DecidableEq, Repr

/-- What the refresh branch of the handler does with the gateway response:
either send a message and stop (no storage access), or perform the
write-back with the given arguments. -/
inductive RefreshOutcome where
  | sendMessage (msg : String)
  | writeBack (cityName : String) (tempMin tempMax : ℚ) (labels : List String)
  deriving DecidableEq, Repr

/-- The fallback text the handler sends when a failing gateway response has
no message. -/
def unknownReasonMessage : String :=
  "failed to communicate with the openweather api: unknown reason"

/-- The refresh branch of ReportLocationWeather after the gateway call
returned a payload: a non-200 Cod sends the provider message (or the
fallback) and returns before any storage call; a 200 Cod reaches
UpdateCachedLocationWeather with the payload fields. -/
def processGatewayResponse (cityName : String) (location : GatewayLocation) :
    RefreshOutcome :=
  if location.cod ≠ 200 then
    match location.message with
    | some m => .sendMessage m
    | none => .sendMessage unknownReasonMessage
  else
    .writeBack cityName location.main.tempMin location.main.tempMax
      location.weatherLabels

/-! ## The write-back transaction (UpdateCachedLocationWeather,
src/db/rows.go) -/

/-- Success or failure of each database step of UpdateCachedLocationWeather,
in program order: Begin, the two Prepare calls, the two QueryRow Scan calls
(the locations upsert and the weather insert), and the final Commit attempt.
-/
structure UpdateSteps where
  beginOk : Bool
  prepare1Ok : Bool
  scan1Ok : Bool
  prepare2Ok : Bool
  scan2Ok : Bool
  commitOk : Bool
  deriving DecidableEq, Repr

/-- Fate of the transaction opened by UpdateCachedLocationWeather. -/
inductive TxnFate where
  | noTxn
  | rolledBack
  | committed
  deriving DecidableEq, Repr

/-- What UpdateCachedLocationWeather returns and what happened to the
transaction: whether a non-nil QueryResult was returned, whether a non-nil
error was returned, and the transaction fate. -/
structure UpdateOutcome where
  hasResult : Bool
  hasError : Bool
  fate : TxnFate
  deriving DecidableEq, Repr

/-- UpdateCachedLocationWeather from src/db/rows.go, as a function of the
step outcomes. The deferred function rolls back when the outer err variable
is non-nil and commits otherwise. A Begin failure returns the still-nil err
variable, not txnError. The first Scan assigns the outer err, but the second
Scan shadows err with a new variable, so after its failure the deferred
function still sees the nil outer err (last written by the successful second
Prepare) and commits. -/
def UpdateCachedLocationWeather (s : UpdateSteps) : UpdateOutcome :=
  if s.beginOk = false then ⟨false, false, .noTxn⟩
  else if s.prepare1Ok = false then ⟨false, true, .rolledBack⟩
  else if s.scan1Ok = false then ⟨false, true, .rolledBack⟩
  else if s.prepare2Ok = false then ⟨false, true, .rolledBack⟩
  else if s.scan2Ok = false then ⟨false, true, .committed⟩
  else ⟨true, false, .committed⟩

/-- Whether the query-counter change made by the locations upsert is visible
after the call: the transaction must have reached a commit and the commit
must have succeeded. -/
def locationCounterChangeVisible (s : UpdateSteps) : Bool :=
  match (UpdateCachedLocationWeather s).fate with
  | .committed => s.commitOk
  | _ => false

/-! ## Concrete inputs used by counterexamples and witnesses -/

/-- One month of one city with day 1 carrying midpoints 10 and 20 and day 2
carrying midpoint 30: the daily samples of the average-correctness example. -/
def monthlyAverageExampleRows : List WeatherJoinRow :=
  [⟨some "A", some 10, some 10, 2020, 1, 1⟩,
   ⟨some "A", some 20, some 20, 2020, 1, 1⟩,
   ⟨some "A", some 30, some 30, 2020, 1, 2⟩]

/-- A scanned row with a set city name and a null temperature pair. -/
def nullTemperatureRow : WeatherJoinRow :=
  ⟨some "A", none, none, 2020, 1, 1⟩

/-- A result whose maps down to the month exist while the day key does not. -/
def monthPathOnlyResult : LocationTemperatureQueryResult :=
  [("A", [(2020, [(1, ([] : DailyTemperatureQuery))])])]

/-- A result with one stored sample, for the idempotence witness. -/
def storedSampleResult : LocationTemperatureQueryResult :=
  [("A", [(2020, [(1, [(1, [(7 : ℚ)])])])])]

/-- Step vector of the run where the weather insert Scan fails after every
earlier step succeeded. -/
def readingInsertFailureSteps : UpdateSteps :=
  ⟨true, true, true, true, false, true⟩

/-- Step vector of the run where Begin fails. -/
def beginFailureSteps : UpdateSteps :=
  ⟨false, true, true, true, true, true⟩

/-- Location A of the freshness counterexample. -/
def locationRowA : LocationRow := ⟨1, "A", 1⟩

/-- Location B of the freshness counterexample. -/
def locationRowB : LocationRow := ⟨2, "B", 1⟩

/-- The only reading of location A, captured at time 10. -/
def weatherRowA : WeatherRow := ⟨1, ["Clear"], some 1, some 1, 10⟩

/-- The only reading of location B, captured at the later time 20. -/
def weatherRowB : WeatherRow := ⟨2, ["Rain"], some 2, some 2, 20⟩

/-- Two locations, each with one reading; the reading of B is globally
newest. -/
def twoLocationDB : WeatherDB :=
  ⟨[locationRowA, locationRowB], [weatherRowA, weatherRowB]⟩

/-- A cached reading captured at time 0, for the TTL witness. -/
def cachedReadingExample : WeatherRow := ⟨1, ["Clear"], some 2, some 1, 0⟩

/-- A failing gateway payload carrying a provider message. -/
def gatewayFailureExample : GatewayLocation :=
  ⟨404, some "city not found", ⟨0, 0⟩, []⟩

/-! ## Map lemmas -/

theorem mapLookup_mapSet_self {K V : Type} [DecidableEq K]
    (l : List (K × V)) (k : K) (v : V) :
    mapLookup (mapSet l k v) k = some v := by
  induction l with
  | nil => simp [mapSet, mapLookup]
  | cons hd tl ih =>
    obtain ⟨k', v'⟩ := hd
    by_cases h : k = k' <;> simp [mapSet, mapLookup, h, ih]

theorem mapLookup_mapSet_ne {K V : Type} [DecidableEq K]
    (l : List (K × V)) (k k' : K) (v : V) (h : k' ≠ k) :
    mapLookup (mapSet l k v) k' = mapLookup l k' := by
  induction l with
  | nil => simp [mapSet, mapLookup, h]
  | cons hd tl ih =>
    obtain ⟨k₀, v₀⟩ := hd
    by_cases hk : k = k₀
    · subst hk
      simp [mapSet, mapLookup, h]
    · by_cases hk' : k' = k₀ <;> simp [mapSet, mapLookup, hk, hk', ih]

theorem mapSet_mapSet_self {K V : Type} [DecidableEq K]
    (l : List (K × V)) (k : K) (v w : V) :
    mapSet (mapSet l k v) k w = mapSet l k w := by
  induction l with
  | nil => simp [mapSet]
  | cons hd tl ih =>
    obtain ⟨k₀, v₀⟩ := hd
    by_cases hk : k = k₀ <;> simp [mapSet, hk, ih]

theorem mapSet_ne_nil {K V : Type} [DecidableEq K]
    (l : List (K × V)) (k : K) (v : V) :
    mapSet l k v ≠ [] := by
  cases l with
  | nil => simp [mapSet]
  | cons hd tl =>
    obtain ⟨k₀, v₀⟩ := hd
    by_cases hk : k = k₀ <;> simp [mapSet, hk]

theorem mapLookup_mem {K V : Type} [DecidableEq K]
    {l : List (K × V)} {k : K} {v : V} (h : mapLookup l k = some v) :
    (k, v) ∈ l := by
  induction l with
  | nil => simp [mapLookup] at h
  | cons hd tl ih =>
    obtain ⟨k₀, v₀⟩ := hd
    by_cases hk : k = k₀
    · subst hk
      simp [mapLookup] at h
      simp [h]
    · simp [mapLookup, hk] at h
      exact List.mem_cons_of_mem _ (ih h)

theorem mapSet_mem {K V : Type} [DecidableEq K]
    {l : List (K × V)} {k : K} {v : V} {a : K × V} (h : a ∈ mapSet l k v) :
    a ∈ l ∨ a = (k, v) := by
  induction l with
  | nil =>
    simp [mapSet] at h
    simp [h]
  | cons hd tl ih =>
    obtain ⟨k₀, v₀⟩ := hd
    by_cases hk : k = k₀
    · subst hk
      simp [mapSet] at h
      rcases h with h | h
      · right; simp [h]
      · left; exact List.mem_cons_of_mem _ h
    · simp [mapSet, hk] at h
      rcases h with h | h
      · left; simp [h]
      · rcases ih h with h' | h'
        · left; exact List.mem_cons_of_mem _ h'
        · right; exact h'

/-! ## Path lemmas -/

theorem initialiseForDate_eq_setPath (q : LocationTemperatureQueryResult)
    (city : String) (y mo d : Int) :
    InitialiseForDate q city y mo d =
      setPath q city y mo d ((lookup4 q city y mo d).getD []) := by
  unfold InitialiseForDate setPath lookup4 lookup3
  cases hq : mapLookup q city with
  | none => simp [mapLookup]
  | some yearly =>
    cases hy : mapLookup yearly y with
    | none => simp [hy, mapLookup]
    | some monthly =>
      cases hm : mapLookup monthly mo with
      | none => simp [hy, hm, mapLookup]
      | some daily => simp [hy, hm]

theorem lookup4_setPath_self (q : LocationTemperatureQueryResult)
    (city : String) (y mo d : Int) (l : TemperatureQueries) :
    lookup4 (setPath q city y mo d l) city y mo d = some l := by
  unfold setPath lookup4 lookup3
  simp [mapLookup_mapSet_self]

theorem lookup3_setPath_self (q : LocationTemperatureQueryResult)
    (city : String) (y mo d : Int) (l : TemperatureQueries) :
    lookup3 (setPath q city y mo d l) city y mo =
      some (mapSet ((lookup3 q city y mo).getD []) d l) := by
  unfold setPath lookup3
  cases hq : mapLookup q city with
  | none => simp [mapLookup_mapSet_self, mapLookup]
  | some yearly =>
    cases hy : mapLookup yearly y with
    | none => simp [hy, mapLookup_mapSet_self, mapLookup]
    | some monthly => simp [hy, mapLookup_mapSet_self]

theorem lookup4_setPath_other (q : LocationTemperatureQueryResult)
    (city : String) (y mo d : Int) (l : TemperatureQueries)
    (city' : String) (y' mo' d' : Int)
    (h : ¬(city' = city ∧ y' = y ∧ mo' = mo ∧ d' = d)) :
    lookup4 (setPath q city y mo d l) city' y' mo' d' =
      lookup4 q city' y' mo' d' := by
  unfold setPath lookup4 lookup3
  by_cases hc : city' = city
  · subst hc
    simp only [mapLookup_mapSet_self, Option.some_bind]
    by_cases hy' : y' = y
    · subst hy'
      simp only [mapLookup_mapSet_self, Option.some_bind]
      by_cases hm' : mo' = mo
      · subst hm'
        simp only [mapLookup_mapSet_self, Option.some_bind]
        have hd' : d' ≠ d := by
          intro hdd
          exact h ⟨rfl, rfl, rfl, hdd⟩
        rw [mapLookup_mapSet_ne _ _ _ _ hd']
        cases hq : mapLookup q city' with
        | none => simp [mapLookup]
        | some yearly =>
          cases hy : mapLookup yearly y' with
          | none => simp [hy, mapLookup]
          | some monthly =>
            cases hm : mapLookup monthly mo' with
            | none => simp [hy, hm, mapLookup]
            | some daily => simp [hy, hm]
      · rw [mapLookup_mapSet_ne _ _ _ _ hm']
        cases hq : mapLookup q city' with
        | none => simp [mapLookup]
        | some yearly =>
          cases hy : mapLookup yearly y' with
          | none => simp [hy, mapLookup]
          | some monthly => simp [hy]
    · rw [mapLookup_mapSet_ne _ _ _ _ hy']
      cases hq : mapLookup q city' with
      | none => simp [mapLookup]
      | some yearly => simp
  · rw [mapLookup_mapSet_ne _ _ _ _ hc]

theorem lookup3_setPath_other (q : LocationTemperatureQueryResult)
    (city : String) (y mo d : Int) (l : TemperatureQueries)
    (city' : String) (y' mo' : Int)
    (h : ¬(city' = city ∧ y' = y ∧ mo' = mo)) :
    lookup3 (setPath q city y mo d l) city' y' mo' = lookup3 q city' y' mo' := by
  unfold setPath lookup3
  by_cases hc : city' = city
  · subst hc
    simp only [mapLookup_mapSet_self, Option.some_bind]
    by_cases hy' : y' = y
    · subst hy'
      simp only [mapLookup_mapSet_self, Option.some_bind]
      have hm' : mo' ≠ mo := by
        intro hmm
        exact h ⟨rfl, rfl, hmm⟩
      rw [mapLookup_mapSet_ne _ _ _ _ hm']
      cases hq : mapLookup q city' with
      | none => simp [mapLookup]
      | some yearly =>
        cases hy : mapLookup yearly y' with
        | none => simp [hy, mapLookup]
        | some monthly => simp [hy]
    · rw [mapLookup_mapSet_ne _ _ _ _ hy']
      cases hq : mapLookup q city' with
      | none => simp [mapLookup]
      | some yearly => simp
  · rw [mapLookup_mapSet_ne _ _ _ _ hc]

theorem setPath_setPath_self (q : LocationTemperatureQueryResult)
    (city : String) (y mo d : Int) (l0 l1 : TemperatureQueries) :
    setPath (setPath q city y mo d l0) city y mo d l1 =
      setPath q city y mo d l1 := by
  conv_lhs => unfold setPath
  simp only [mapLookup_mapSet_self, Option.getD_some]
  rw [mapSet_mapSet_self, mapSet_mapSet_self, mapSet_mapSet_self,
    mapSet_mapSet_self]
  rfl

theorem Add_setPath (q : LocationTemperatureQueryResult)
    (city : String) (y mo d : Int) (l0 : TemperatureQueries) (t : ℚ) :
    Add (setPath q city y mo d l0) t city y mo d =
      some (setPath q city y mo d (l0 ++ [t])) := by
  conv_lhs => unfold setPath Add
  simp only [mapLookup_mapSet_self, Option.getD_some]
  rw [mapSet_mapSet_self, mapSet_mapSet_self, mapSet_mapSet_self,
    mapSet_mapSet_self]
  rfl

theorem Add_none_of_lookup3_none (q : LocationTemperatureQueryResult)
    (t : ℚ) (city : String) (y mo d : Int)
    (h : lookup3 q city y mo = none) :
    Add q t city y mo d = none := by
  unfold lookup3 at h
  unfold Add
  cases hq : mapLookup q city with
  | none => rfl
  | some yearly =>
    rw [hq] at h
    simp only [Option.some_bind] at h
    cases hy : mapLookup yearly y with
    | none => simp [hy]
    | some monthly =>
      rw [hy] at h
      simp only [Option.some_bind] at h
      cases hm : mapLookup monthly mo with
      | none => simp [hy, hm]
      | some daily => rw [hm] at h; exact absurd h (by simp)

theorem Add_eq_setPath_of_lookup3 (q : LocationTemperatureQueryResult)
    (t : ℚ) (city : String) (y mo d : Int) (daily : DailyTemperatureQuery)
    (h : lookup3 q city y mo = some daily) :
    Add q t city y mo d =
      some (setPath q city y mo d ((mapLookup daily d).getD [] ++ [t])) := by
  unfold lookup3 at h
  cases hq : mapLookup q city with
  | none => rw [hq] at h; exact absurd h (by simp)
  | some yearly =>
    rw [hq] at h
    simp only [Option.some_bind] at h
    cases hy : mapLookup yearly y with
    | none => rw [hy] at h; exact absurd h (by simp)
    | some monthly =>
      rw [hy] at h
      simp only [Option.some_bind] at h
      unfold Add setPath
      simp only [hq, hy, h, Option.getD_some]

theorem filter_head?_pred {α : Type} (p : α → Bool) (xs : List α) (a : α)
    (h : (xs.filter p).head? = some a) : p a = true := by
  induction xs with
  | nil => simp [List.filter] at h
  | cons x t ih =>
    by_cases hx : p x
    · rw [List.filter_cons_of_pos hx] at h
      simp at h
      rw [← h]
      exact hx
    · rw [List.filter_cons_of_neg] at h
      · exact ih h
      · simp [hx]

/-! ## Invariant lemmas for the bucketing folds -/

theorem NonEmptyLeaves_nil : NonEmptyLeaves [] := by
  intro ce hce
  exact absurd hce (List.not_mem_nil _)

theorem NonEmptyMonths_nil : NonEmptyMonths [] := by
  intro ce hce
  exact absurd hce (List.not_mem_nil _)

theorem NonEmptyLeaves_setPath (q : LocationTemperatureQueryResult)
    (city : String) (y mo d : Int) (l : TemperatureQueries) (hl : l ≠ [])
    (h : NonEmptyLeaves q) : NonEmptyLeaves (setPath q city y mo d l) := by
  unfold setPath
  intro ce hce
  rcases mapSet_mem hce with hce | hce
  · exact h ce hce
  · rw [hce]
    intro ye hye
    rcases mapSet_mem hye with hye | hye
    · cases hq : mapLookup q city with
      | none => rw [hq] at hye; simp at hye
      | some Y =>
        rw [hq] at hye
        simp only [Option.getD_some] at hye
        exact h (city, Y) (mapLookup_mem hq) ye hye
    · rw [hye]
      intro me hme
      rcases mapSet_mem hme with hme | hme
      · cases hq : mapLookup q city with
        | none => rw [hq] at hme; simp [mapLookup] at hme
        | some Y =>
          rw [hq] at hme
          simp only [Option.getD_some] at hme
          cases hy : mapLookup Y y with
          | none => rw [hy] at hme; simp at hme
          | some M =>
            rw [hy] at hme
            simp only [Option.getD_some] at hme
            exact h (city, Y) (mapLookup_mem hq) (y, M) (mapLookup_mem hy)
              me hme
      · rw [hme]
        intro de hde
        rcases mapSet_mem hde with hde | hde
        · cases hq : mapLookup q city with
          | none => rw [hq] at hde; simp [mapLookup] at hde
          | some Y =>
            rw [hq] at hde
            simp only [Option.getD_some] at hde
            cases hy : mapLookup Y y with
            | none => rw [hy] at hde; simp [mapLookup] at hde
            | some M =>
              rw [hy] at hde
              simp only [Option.getD_some] at hde
              cases hm : mapLookup M mo with
              | none => rw [hm] at hde; simp at hde
              | some D =>
                rw [hm] at hde
                simp only [Option.getD_some] at hde
                exact h (city, Y) (mapLookup_mem hq) (y, M) (mapLookup_mem hy)
                  (mo, D) (mapLookup_mem hm) de hde
        · rw [hde]
          exact hl

theorem NonEmptyMonths_setPath (q : LocationTemperatureQueryResult)
    (city : String) (y mo d : Int) (l : TemperatureQueries)
    (h : NonEmptyMonths q) : NonEmptyMonths (setPath q city y mo d l) := by
  unfold setPath
  intro ce hce
  rcases mapSet_mem hce with hce | hce
  · exact h ce hce
  · rw [hce]
    intro ye hye
    rcases mapSet_mem hye with hye | hye
    · cases hq : mapLookup q city with
      | none => rw [hq] at hye; simp at hye
      | some Y =>
        rw [hq] at hye
        simp only [Option.getD_some] at hye
        exact h (city, Y) (mapLookup_mem hq) ye hye
    · rw [hye]
      intro me hme
      rcases mapSet_mem hme with hme | hme
      · cases hq : mapLookup q city with
        | none => rw [hq] at hme; simp [mapLookup] at hme
        | some Y =>
          rw [hq] at hme
          simp only [Option.getD_some] at hme
          cases hy : mapLookup Y y with
          | none => rw [hy] at hme; simp at hme
          | some M =>
            rw [hy] at hme
            simp only [Option.getD_some] at hme
            exact h (city, Y) (mapLookup_mem hq) (y, M) (mapLookup_mem hy)
              me hme
      · rw [hme]
        exact mapSet_ne_nil _ _ _

theorem bucketFold_some_months (sample : WeatherJoinRow → Option ℚ) :
    ∀ (rows : List WeatherJoinRow) (acc : LocationTemperatureQueryResult),
      NonEmptyMonths acc →
      ∃ q, bucketFold sample rows acc = some q ∧ NonEmptyMonths q := by
  intro rows
  induction rows with
  | nil => exact fun acc hacc => ⟨acc, rfl, hacc⟩
  | cons r rest ih =>
    intro acc hacc
    cases hc : r.cname with
    | none =>
      obtain ⟨q, hq, hm⟩ := ih acc hacc
      exact ⟨q, by simp [bucketFold, hc, hq], hm⟩
    | some city =>
      have hinit := initialiseForDate_eq_setPath acc city r.year r.month r.day
      cases hs : sample r with
      | none =>
        have hacc1 := NonEmptyMonths_setPath acc city r.year r.month r.day
          ((lookup4 acc city r.year r.month r.day).getD []) hacc
        obtain ⟨q, hq, hm⟩ := ih _ hacc1
        refine ⟨q, ?_, hm⟩
        simp [bucketFold, hc, hs, hinit, hq]
      | some t =>
        have hadd := Add_setPath acc city r.year r.month r.day
          ((lookup4 acc city r.year r.month r.day).getD []) t
        have hacc2 := NonEmptyMonths_setPath acc city r.year r.month r.day
          ((lookup4 acc city r.year r.month r.day).getD [] ++ [t]) hacc
        obtain ⟨q, hq, hm⟩ := ih _ hacc2
        refine ⟨q, ?_, hm⟩
        simp [bucketFold, hc, hs, hinit, hadd, hq]

theorem bucketFold_leaves (sample : WeatherJoinRow → Option ℚ) :
    ∀ (rows : List WeatherJoinRow) (acc q : LocationTemperatureQueryResult),
      (∀ r ∈ rows, r.cname.isSome → (sample r).isSome) →
      NonEmptyLeaves acc → bucketFold sample rows acc = some q →
      NonEmptyLeaves q := by
  intro rows
  induction rows with
  | nil =>
    intro acc q hvalid hacc hq
    simp [bucketFold] at hq
    rw [← hq]
    exact hacc
  | cons r rest ih =>
    intro acc q hvalid hacc hq
    cases hc : r.cname with
    | none =>
      simp only [bucketFold, hc] at hq
      exact ih acc q
        (fun r' h' => hvalid r' (List.mem_cons_of_mem _ h')) hacc hq
    | some city =>
      have hsome : (sample r).isSome :=
        hvalid r (List.mem_cons_self _ _) (by simp [hc])
      cases hs : sample r with
      | none => rw [hs] at hsome; simp at hsome
      | some t =>
        simp only [bucketFold, hc, hs,
          initialiseForDate_eq_setPath, Add_setPath] at hq
        refine ih _ q
          (fun r' h' => hvalid r' (List.mem_cons_of_mem _ h')) ?_ hq
        exact NonEmptyLeaves_setPath acc city r.year r.month r.day _
          (by simp) hacc

theorem monthLoop_leaves (c : String) (y : Int) :
    ∀ (entries : List (Int × DailyTemperatureQuery))
      (acc : LocationTemperatureQueryResult), NonEmptyLeaves acc →
      ∃ q, monthlyAverageMonthLoop c y entries acc = some q ∧
        NonEmptyLeaves q := by
  intro entries
  induction entries with
  | nil => exact fun acc hacc => ⟨acc, rfl, hacc⟩
  | cons e rest ih =>
    intro acc hacc
    obtain ⟨m, month⟩ := e
    have hinit := initialiseForDate_eq_setPath acc c y m 0
    have hadd := Add_setPath acc c y m 0 ((lookup4 acc c y m 0).getD [])
      (monthAverage month)
    have hacc2 := NonEmptyLeaves_setPath acc c y m 0
      ((lookup4 acc c y m 0).getD [] ++ [monthAverage month]) (by simp) hacc
    obtain ⟨q, hq, hnel⟩ := ih _ hacc2
    refine ⟨q, ?_, hnel⟩
    simp [monthlyAverageMonthLoop, hinit, hadd, hq]

theorem yearLoop_leaves (c : String) :
    ∀ (entries : List (Int × MonthlyTemperatureQuery))
      (acc : LocationTemperatureQueryResult), NonEmptyLeaves acc →
      ∃ q, monthlyAverageYearLoop c entries acc = some q ∧
        NonEmptyLeaves q := by
  intro entries
  induction entries with
  | nil => exact fun acc hacc => ⟨acc, rfl, hacc⟩
  | cons e rest ih =>
    intro acc hacc
    obtain ⟨y, months⟩ := e
    obtain ⟨q1, hq1, hnel1⟩ := monthLoop_leaves c y months acc hacc
    obtain ⟨q, hq, hnel⟩ := ih q1 hnel1
    refine ⟨q, ?_, hnel⟩
    simp [monthlyAverageYearLoop, hq1, hq]

theorem cityLoop_leaves :
    ∀ (entries : List (String × YearlyTemperatureQuery))
      (acc : LocationTemperatureQueryResult), NonEmptyLeaves acc →
      ∃ q, monthlyAverageCityLoop entries acc = some q ∧
        NonEmptyLeaves q := by
  intro entries
  induction entries with
  | nil => exact fun acc hacc => ⟨acc, rfl, hacc⟩
  | cons e rest ih =>
    intro acc hacc
    obtain ⟨c, years⟩ := e
    obtain ⟨q1, hq1, hnel1⟩ := yearLoop_leaves c years acc hacc
    obtain ⟨q, hq, hnel⟩ := ih q1 hnel1
    refine ⟨q, ?_, hnel⟩
    simp [monthlyAverageCityLoop, hq1, hq]

theorem samplesPerMonth_ne_zero (D : DailyTemperatureQuery) (hne : D ≠ []) :
    samplesPerMonth D ≠ 0 := by
  unfold samplesPerMonth
  intro h0
  exact hne (List.length_eq_zero.mp h0)

theorem samplesPerDay_ne_zero (D : DailyTemperatureQuery) (hne : D ≠ [])
    (h : ∀ de ∈ D, de.2 ≠ []) : samplesPerDay D ≠ 0 := by
  cases D with
  | nil => exact absurd rfl hne
  | cons de rest =>
    unfold samplesPerDay
    simp only [List.map_cons, List.sum_cons]
    intro h0
    have hlen : de.2.length = 0 := by omega
    exact h de (List.mem_cons_self _ _) (List.length_eq_zero.mp hlen)

theorem dailySample_isSome (r : WeatherJoinRow) (h1 : r.tempLo.isSome)
    (h2 : r.tempHi.isSome) : (dailySample r).isSome := by
  unfold dailySample
  cases hl : r.tempLo with
  | none => rw [hl] at h1; simp at h1
  | some lo =>
    cases hh : r.tempHi with
    | none => rw [hh] at h2; simp at h2
    | some hi => simp [hl, hh]

/-! ## Claim theorems -/

/-- C1. The claim says the stored monthly average is the two-stage average
(22.5 on the daily samples day1 = 10, 20 and day2 = 30). The code instead
divides the month sum by the total sample count and then again by the day
count, storing 10 on that input: neither the two-stage average 22.5 nor the
flat mean 20. -/
theorem monthlyAverageTemperature_not_two_stage :
    (MonthlyAverageTemperature monthlyAverageExampleRows).bind
        (fun q => lookup4 q "A" 2020 1 0) = some [10] ∧
    (10 : ℚ) ≠ ((10 + 20) / 2 + 30) / 2 ∧
    (10 : ℚ) ≠ (10 + 20 + 30) / 3 :=
  ⟨by with_unfolding_all rfl, by norm_num, by norm_num⟩

/-- C2. The claim says a Reading-insert failure after a successful Location
upsert rolls the transaction back. In the run where exactly the second Scan
fails, the shadowed err variable leaves the outer err nil, the deferred
function commits, and the query-counter change is visible. -/
theorem updateCachedLocationWeather_commits_on_reading_insert_failure :
    readingInsertFailureSteps.scan1Ok = true ∧
    readingInsertFailureSteps.scan2Ok = false ∧
    UpdateCachedLocationWeather readingInsertFailureSteps =
      ⟨false, true, TxnFate.committed⟩ ∧
    locationCounterChangeVisible readingInsertFailureSteps = true := by
  decide

/-- C3 counterexample. One scanned row with a set city name and a null
temp_low makes MonthlyTemperature materialise the bucket path with an EMPTY
leaf: InitialiseForDate runs before the null-temperature check, so the
resulting structure carries an empty sample list at the path. -/
theorem monthlyTemperature_materialises_empty_leaf :
    MonthlyTemperature FilterLows [nullTemperatureRow] =
      MonthlyTemperatureResult.ok [("A", [(2020, [(1, [(1, [])])])])] ∧
    lookup4 [("A", [(2020, [(1, [(1, ([] : TemperatureQueries))])])])]
      "A" 2020 1 1 = some [] :=
  ⟨by with_unfolding_all rfl, by with_unfolding_all rfl⟩

/-- C3 amended. An empty leaf can be materialised by a row whose temperature
is null, because InitialiseForDate runs before the null check. When every
row with a set city name carries non-null temperatures, every leaf of every
bucketing fold result is non-empty; the final MonthlyAverageTemperature
output additionally has non-empty leaves (a stored average per month). -/
theorem bucketing_leaves_nonEmpty_of_valid_temps (rows : List WeatherJoinRow)
    (h : ∀ r ∈ rows, r.cname.isSome → r.tempLo.isSome ∧ r.tempHi.isSome) :
    (∀ q, bucketFold (fun r => r.tempLo) rows [] = some q →
      NonEmptyLeaves q) ∧
    (∀ q, bucketFold (fun r => r.tempHi) rows [] = some q →
      NonEmptyLeaves q) ∧
    (∀ q, bucketFold dailySample rows [] = some q → NonEmptyLeaves q) ∧
    (∀ q, MonthlyAverageTemperature rows = some q → NonEmptyLeaves q) := by
  refine ⟨?_, ?_, ?_, ?_⟩
  · intro q hq
    exact bucketFold_leaves _ rows [] q (fun r hr hs => (h r hr hs).1)
      NonEmptyLeaves_nil hq
  · intro q hq
    exact bucketFold_leaves _ rows [] q (fun r hr hs => (h r hr hs).2)
      NonEmptyLeaves_nil hq
  · intro q hq
    exact bucketFold_leaves _ rows [] q
      (fun r hr hs => dailySample_isSome r (h r hr hs).1 (h r hr hs).2)
      NonEmptyLeaves_nil hq
  · intro q hq
    cases hb : bucketFold dailySample rows [] with
    | none =>
      unfold MonthlyAverageTemperature at hq
      rw [hb] at hq
      exact absurd hq (by simp)
    | some daily =>
      have hq1 : monthlyAverageCityLoop daily [] = some q := by
        unfold MonthlyAverageTemperature at hq
        rw [hb] at hq
        exact hq
      obtain ⟨q2, hq2, hnel⟩ := cityLoop_leaves daily [] NonEmptyLeaves_nil
      rw [hq2] at hq1
      rw [← Option.some.inj hq1]
      exact hnel

/-- C3 witness: the amended statement applied to the concrete three-row run,
whose daily structure has the leaves 10, 20 and 30. -/
theorem bucketing_leaves_nonEmpty_witness :
    NonEmptyLeaves
      [("A", [(2020, [(1, [(1, [(10 : ℚ), 20]), (2, [30])])])])] :=
  (bucketing_leaves_nonEmpty_of_valid_temps monthlyAverageExampleRows
    (by decide)).2.2.1 _ (by with_unfolding_all rfl)

/-- C4 counterexample. A null-temperature row leaves an empty day bucket in
the month being averaged: the per-month sample counter is 0 and the division
avg /= samplesPerDay divides by zero (NaN in the float64 original). -/
theorem monthlyAverage_divisor_zero_on_null_temp_row :
    bucketFold dailySample [nullTemperatureRow] [] =
      some [("A", [(2020, [(1, [(1, [])])])])] ∧
    samplesPerDay [(1, ([] : TemperatureQueries))] = 0 ∧
    samplesPerMonth [(1, ([] : TemperatureQueries))] = 1 ∧
    ¬ MonthDivisorsNonZero [("A", [(2020, [(1, [(1, [])])])])] :=
  ⟨by with_unfolding_all rfl, rfl, rfl, by decide⟩

/-- C4 amended. The day-count divisor samplesPerMonth is non-zero for every
month bucket the averaging loop iterates (a month bucket always holds at
least one day bucket); the sample-count divisor samplesPerDay is non-zero
only under the extra assumption that every row with a set city name carried
non-null temperatures, and is zero when a month holds only empty day
buckets. -/
theorem monthlyAverage_divisors_characterisation
    (rows : List WeatherJoinRow) (q : LocationTemperatureQueryResult)
    (hq : bucketFold dailySample rows [] = some q) :
    (∀ ce ∈ q, ∀ ye ∈ ce.2, ∀ me ∈ ye.2, samplesPerMonth me.2 ≠ 0) ∧
    ((∀ r ∈ rows, r.cname.isSome → r.tempLo.isSome ∧ r.tempHi.isSome) →
      MonthDivisorsNonZero q) := by
  obtain ⟨q', hq', hmonths⟩ :=
    bucketFold_some_months dailySample rows [] NonEmptyMonths_nil
  rw [hq] at hq'
  obtain rfl : q = q' := Option.some.inj hq'
  constructor
  · intro ce hce ye hye me hme
    exact samplesPerMonth_ne_zero me.2 (hmonths ce hce ye hye me hme)
  · intro hvalid
    have hnel := bucketFold_leaves dailySample rows [] q
      (fun r hr hs =>
        dailySample_isSome r (hvalid r hr hs).1 (hvalid r hr hs).2)
      NonEmptyLeaves_nil hq
    intro ce hce ye hye me hme
    refine ⟨?_, ?_⟩
    · exact samplesPerDay_ne_zero me.2 (hmonths ce hce ye hye me hme)
        (fun de hde => hnel ce hce ye hye me hme de hde)
    · exact samplesPerMonth_ne_zero me.2 (hmonths ce hce ye hye me hme)

/-- C4 witness: both divisors are non-zero on the three-row run. -/
theorem monthlyAverage_divisors_witness :
    MonthDivisorsNonZero
      [("A", [(2020, [(1, [(1, [(10 : ℚ), 20]), (2, [30])])])])] :=
  (monthlyAverage_divisors_characterisation monthlyAverageExampleRows _
    (by with_unfolding_all rfl)).2 (by decide)

/-- Both live arms of the Scan switch return a nil QueryResult, so the
lookup returns no reading for any database state and any city. -/
theorem fetchLocationWeather_eq_none (db : WeatherDB) (cityName : String) :
    FetchLocationWeather db cityName = none := by
  unfold FetchLocationWeather
  cases fetchScannedRow db cityName <;> rfl

/-- The row the query scans (before the switch discards it) pairs a location
row matching the requested city name with a weather row whose capture
timestamp equals the maximum across ALL readings of every location: the
subquery select max(at_time) from weather has no per-location scoping and
the query has no locations.id = weather.location_id join. -/
theorem fetchScannedRow_uses_global_max (db : WeatherDB)
    (cityName : String) (lr : LocationRow) (wr : WeatherRow)
    (h : fetchScannedRow db cityName = some (lr, wr)) :
    lr.cityName = cityName ∧ maxAtTime db.weather = some wr.atTime := by
  unfold fetchScannedRow fetchCandidates at h
  have hp := filter_head?_pred _ _ _ h
  simp only [Bool.and_eq_true, beq_iff_eq] at hp
  exact ⟨hp.1, hp.2⟩

/-- C5. The claim says the freshness lookup returns the most recent reading
of the named location itself. In the code the case err arm of the Scan
switch always matches, making the default arm dead: FetchLocationWeather
returns a nil QueryResult on every input, so no reading is ever returned —
concretely for city A, whose own reading (location id 1, captured at 10)
exists in the database. Moreover the row the query scans before discarding
it is selected by the global maximum of at_time with no location join: for
city A it is the reading of B (captured at 20). -/
theorem fetchLocationWeather_never_returns_reading :
    (∀ (db : WeatherDB) (cityName : String),
      FetchLocationWeather db cityName = none) ∧
    fetchScannedRow twoLocationDB "A" = some (locationRowA, weatherRowB) ∧
    weatherRowA.locationRowId = locationRowA.id ∧
    weatherRowA.atTime = 10 ∧ weatherRowB.atTime = 20 :=
  ⟨fetchLocationWeather_eq_none, by with_unfolding_all rfl, rfl, rfl, rfl⟩

/-- The TTL comparison of the handler in isolation, as a function of the
lookup result it is handed: a fetched reading strictly younger than one
minute (60000000000 nanoseconds) answers from the cache, an older one and a
nil lookup result call the gateway. (In the program the lookup always hands
the handler a nil result; see the theorem on the composed pipeline.) -/
theorem reportLocationWeather_ttl (lr : LocationRow) (wr : WeatherRow)
    (now : Int) :
    (now - wr.atTime < 60000000000 →
      ReportLocationWeather (some (lr, wr)) now =
        HandlerAction.respondCached wr) ∧
    (60000000000 ≤ now - wr.atTime →
      ReportLocationWeather (some (lr, wr)) now =
        HandlerAction.callGateway) ∧
    ReportLocationWeather none now = HandlerAction.callGateway := by
  have key : deltaMinutes now wr.atTime < cacheTTLMinutes ↔
      now - wr.atTime < 60000000000 := by
    unfold deltaMinutes cacheTTLMinutes
    rw [div_lt_one (by norm_num : (0 : ℚ) < 60000000000)]
    constructor
    · intro h
      exact_mod_cast h
    · intro h
      exact_mod_cast h
  refine ⟨?_, ?_, rfl⟩
  · intro h
    show (if deltaMinutes now wr.atTime < cacheTTLMinutes then
        HandlerAction.respondCached wr else HandlerAction.callGateway) =
      HandlerAction.respondCached wr
    rw [if_pos (key.mpr h)]
  · intro h
    show (if deltaMinutes now wr.atTime < cacheTTLMinutes then
        HandlerAction.respondCached wr else HandlerAction.callGateway) =
      HandlerAction.callGateway
    rw [if_neg]
    intro hlt
    exact absurd (key.mp hlt) (not_lt.mpr h)

/-- Boundary instances of the TTL comparison: one nanosecond under the TTL
answers from the cache, exactly the TTL calls the gateway. -/
theorem reportLocationWeather_ttl_boundary :
    ReportLocationWeather (some (locationRowA, cachedReadingExample))
      59999999999 = HandlerAction.respondCached cachedReadingExample ∧
    ReportLocationWeather (some (locationRowA, cachedReadingExample))
      60000000000 = HandlerAction.callGateway :=
  ⟨(reportLocationWeather_ttl locationRowA cachedReadingExample
      59999999999).1 (by decide),
   (reportLocationWeather_ttl locationRowA cachedReadingExample
      60000000000).2.1 (by decide)⟩

/-- C6. The claim says a cached Reading fresher than one minute suppresses
the Provider Gateway call. Because FetchLocationWeather returns a nil
QueryResult on every path (dead default arm of its Scan switch), the
handler never sees a cached reading, refresh stays true and the gateway is
called on EVERY request — concretely for city A, whose stored reading is
one nanosecond old at request time 11, far under the TTL. -/
theorem reportLocationWeather_always_calls_gateway :
    (∀ (db : WeatherDB) (cityName : String) (now : Int),
      ReportLocationWeather (FetchLocationWeather db cityName) now =
        HandlerAction.callGateway) ∧
    weatherRowA.locationRowId = locationRowA.id ∧
    weatherRowA.atTime = 10 ∧
    ReportLocationWeather (FetchLocationWeather twoLocationDB "A") 11 =
      HandlerAction.callGateway := by
  refine ⟨?_, rfl, rfl, ?_⟩
  · intro db cityName now
    rw [fetchLocationWeather_eq_none]
    rfl
  · rw [fetchLocationWeather_eq_none]
    rfl

/-- C7. A non-200 gateway status makes the refresh branch send the provider
message when present and the generic unknown-reason text otherwise; the
outcome is a sent message, not the storage write-back, so neither the
Location upsert nor a Reading insert runs. -/
theorem processGatewayResponse_non_success (cityName : String)
    (location : GatewayLocation) (h : location.cod ≠ 200) :
    processGatewayResponse cityName location =
      RefreshOutcome.sendMessage
        (location.message.getD unknownReasonMessage) := by
  obtain ⟨cod, msg, main, labels⟩ := location
  unfold processGatewayResponse
  rw [if_pos h]
  cases msg <;> rfl

/-- C7 witness: a 404 response with a provider message surfaces exactly that
message. -/
theorem processGatewayResponse_non_success_witness :
    processGatewayResponse "Reno" gatewayFailureExample =
      RefreshOutcome.sendMessage "city not found" :=
  processGatewayResponse_non_success "Reno" gatewayFailureExample (by decide)

/-- C8. Ensuring a bucket path is idempotent: a second InitialiseForDate for
the same (city, y, mo, d) is a no-op, and samples already stored at the path
are left untouched. -/
theorem initialiseForDate_idempotent (q : LocationTemperatureQueryResult)
    (city : String) (y mo d : Int) :
    InitialiseForDate (InitialiseForDate q city y mo d) city y mo d =
      InitialiseForDate q city y mo d ∧
    ∀ l, lookup4 q city y mo d = some l →
      lookup4 (InitialiseForDate q city y mo d) city y mo d = some l := by
  constructor
  · rw [initialiseForDate_eq_setPath q city y mo d,
      initialiseForDate_eq_setPath (setPath q city y mo d _) city y mo d,
      lookup4_setPath_self, Option.getD_some, setPath_setPath_self]
  · intro l hl
    rw [initialiseForDate_eq_setPath, hl, Option.getD_some,
      lookup4_setPath_self]

/-- C8 witness: the idempotence equation and sample preservation on a
structure holding the sample 7 at the path. -/
theorem initialiseForDate_idempotent_witness :
    InitialiseForDate (InitialiseForDate storedSampleResult "A" 2020 1 1)
      "A" 2020 1 1 = InitialiseForDate storedSampleResult "A" 2020 1 1 ∧
    lookup4 (InitialiseForDate storedSampleResult "A" 2020 1 1)
      "A" 2020 1 1 = some [7] :=
  ⟨(initialiseForDate_idempotent storedSampleResult "A" 2020 1 1).1,
   (initialiseForDate_idempotent storedSampleResult "A" 2020 1 1).2 [7]
     (by with_unfolding_all rfl)⟩

/-- C9. When Begin fails, UpdateCachedLocationWeather returns the still-nil
err variable instead of txnError: a nil QueryResult together with a nil
error, so the storage failure is not propagated. -/
theorem updateCachedLocationWeather_swallows_begin_error (s : UpdateSteps)
    (h : s.beginOk = false) :
    UpdateCachedLocationWeather s = ⟨false, false, TxnFate.noTxn⟩ := by
  simp [UpdateCachedLocationWeather, h]

/-- C9 witness: the concrete Begin-failure run. -/
theorem updateCachedLocationWeather_swallows_begin_error_witness :
    UpdateCachedLocationWeather beginFailureSteps =
      ⟨false, false, TxnFate.noTxn⟩ :=
  updateCachedLocationWeather_swallows_begin_error beginFailureSteps rfl

/-- C10 counterexample. With the maps down to the month present but no day
key, the full (city, year, month, day) path does not exist, yet Add does not
panic: the append into the existing month map creates the day entry. -/
theorem add_without_day_key_no_panic :
    lookup4 monthPathOnlyResult "A" 2020 1 1 = none ∧
    Add monthPathOnlyResult 5 "A" 2020 1 1 =
      some [("A", [(2020, [(1, [(1, [(5 : ℚ)])])])])] :=
  ⟨by with_unfolding_all rfl, by with_unfolding_all rfl⟩

/-- C10 amended. Add needs exactly the maps down to the month: when
q[city][y][mo] is missing the nested assignment targets a nil map and
panics; when it exists Add succeeds and appends the sample to the leaf,
creating the day entry if absent. InitialiseForDate establishes the full
path, which is sufficient. -/
theorem add_month_path_characterisation (q : LocationTemperatureQueryResult)
    (t : ℚ) (city : String) (y mo d : Int) :
    (lookup3 q city y mo = none → Add q t city y mo d = none) ∧
    ∀ daily, lookup3 q city y mo = some daily →
      ∃ q2, Add q t city y mo d = some q2 ∧
        lookup4 q2 city y mo d =
          some ((lookup4 q city y mo d).getD [] ++ [t]) := by
  constructor
  · intro h
    exact Add_none_of_lookup3_none q t city y mo d h
  · intro daily hd
    refine ⟨_, Add_eq_setPath_of_lookup3 q t city y mo d daily hd, ?_⟩
    rw [lookup4_setPath_self]
    have hl : lookup4 q city y mo d = mapLookup daily d := by
      unfold lookup4
      rw [hd]
      rfl
    rw [hl]

/-- C10 witness: the amended statement applied where the full path exists
with stored sample 7. -/
theorem add_month_path_characterisation_witness :
    ∃ q2, Add storedSampleResult 5 "A" 2020 1 1 = some q2 ∧
      lookup4 q2 "A" 2020 1 1 =
        some ((lookup4 storedSampleResult "A" 2020 1 1).getD [] ++ [5]) :=
  (add_month_path_characterisation storedSampleResult 5 "A" 2020 1 1).2
    [(1, [7])] (by with_unfolding_all rfl)

end Weather
